import Mathlib

/-!
# Verification of the `cpp-verify` expression-decomposition header

Shallow embedding of `src/include/verify.hpp` (namespace `CppVerify`):
comparator tags, expression nodes, the `Decomposition` /
`NegatedDecomposition` result objects, and the two-stage capture
pipeline (`decompose` / `FirstOperand` / `SecondOperand`).

C++ templates over operand types `T1`, `T2` become Lean definitions
parametrised by the operand types together with the operands' native
comparison operations (a `NativeOps` record standing for the operators
the C++ instantiation would resolve) and their stream-output rendering
(a `printT : T -> String` argument standing for `stream << operand`).
`std::ostream` is modelled as accumulated text plus the `boolalpha`
formatting flag, the only formatting state the header touches.
-/

namespace CppVerify

/-- The six comparator tag types `EQ NE LE GE LT GT` of verify.hpp
(lines 85-90), modelled as one closed inductive of tags since C++ uses
them only as template arguments selecting an `evaluate` rule and a glyph. -/
inductive Comparator : Type where
  | EQ : Comparator
  | NE : Comparator
  | LE : Comparator
  | GE : Comparator
  | LT : Comparator
  | GT : Comparator
deriving DecidableEq, Repr

/-- The native comparison operators of an operand-type pair `(T1, T2)`:
what `op1 == op2`, `op1 != op2`, ... resolve to at the C++ instantiation
of `EQ::evaluate` .. `GT::evaluate`. Kept as six independent functions
because C++ does not force `!=` to be the complement of `==`. -/
structure NativeOps (T1 T2 : Type) where
  eq : T1 → T2 → Bool
  ne : T1 → T2 → Bool
  le : T1 → T2 → Bool
  ge : T1 → T2 → Bool
  lt : T1 → T2 → Bool
  gt : T1 → T2 → Bool

/-- `EQ::evaluate(op1, op2)` .. `GT::evaluate(op1, op2)` (verify.hpp
lines 85-90): each tag applies the operands' corresponding native
comparison operator. -/
def Comparator.evaluate {T1 T2 : Type} (c : Comparator) (native : NativeOps T1 T2)
    (op1 : T1) (op2 : T2) : Bool :=
  match c with
  | .EQ => native.eq op1 op2
  | .NE => native.ne op1 op2
  | .LE => native.le op1 op2
  | .GE => native.ge op1 op2
  | .LT => native.lt op1 op2
  | .GT => native.gt op1 op2

/-- The display glyph each tag inserts into a stream (verify.hpp
lines 92-97). -/
def Comparator.glyph : Comparator → String
  | .EQ => " == "
  | .NE => " != "
  | .LE => " <= "
  | .GE => " >= "
  | .LT => " < "
  | .GT => " > "

/-- `std::ostream`, reduced to what the header observes and could
mutate: the accumulated character output and the `boolalpha` formatting
flag (the only manipulator the header ever applies). -/
structure Ostream where
  content : String
  boolalpha : Bool
deriving DecidableEq, Repr

/-- A fresh `std::stringstream`: empty content, `boolalpha` off
(the C++ default). -/
def Ostream.empty : Ostream := ⟨"", false⟩

/-- `stream << someString`: appends text, leaves formatting state alone. -/
def Ostream.insertStr (os : Ostream) (s : String) : Ostream :=
  ⟨os.content ++ s, os.boolalpha⟩

/-- `stream << std::boolalpha`: switches the flag on. -/
def Ostream.setBoolalpha (os : Ostream) : Ostream :=
  ⟨os.content, true⟩

/-- The lowercase word a `boolalpha` stream prints for a boolean. -/
def boolText (b : Bool) : String := if b then "true" else "false"

/-- `stream << someBool`: renders "true"/"false" under `boolalpha`,
"1"/"0" otherwise; formatting state unchanged. -/
def Ostream.insertBool (os : Ostream) (b : Bool) : Ostream :=
  ⟨os.content ++ (if os.boolalpha then boolText b else if b then "1" else "0"), os.boolalpha⟩

/-- `UnaryExpression<T>` (verify.hpp lines 157-174): wraps a single
operand. -/
structure UnaryExpression (T : Type) where
  operand : T

/-- `UnaryExpression::evaluate` = `static_cast<bool>(operand)`;
`toBool` stands for the operand type's conversion to `bool`. -/
def UnaryExpression.evaluate {T : Type} (toBool : T → Bool) (e : UnaryExpression T) : Bool :=
  toBool e.operand

/-- `operator<<(os, UnaryExpression)` (verify.hpp lines 167-173): the
operand is rendered into a local `std::stringstream` (default flags)
whose finished string is inserted into `os`; `printT` stands for
`stream << operand` on that fresh local stream. -/
def UnaryExpression.printTo {T : Type} (printT : T → String)
    (e : UnaryExpression T) (os : Ostream) : Ostream :=
  os.insertStr ((Ostream.empty.insertStr (printT e.operand)).content)

/-- `BinaryExpression<L, Comparison, R>` (verify.hpp lines 177-195):
two operands plus the comparator tag the instantiation fixed. -/
structure BinaryExpression (L R : Type) where
  cmp : Comparator
  operand1 : L
  operand2 : R

/-- `BinaryExpression::evaluate` = `Comparison::evaluate(operand1, operand2)`. -/
def BinaryExpression.evaluate {L R : Type} (native : NativeOps L R)
    (e : BinaryExpression L R) : Bool :=
  e.cmp.evaluate native e.operand1 e.operand2

/-- `operator<<(os, BinaryExpression)` (verify.hpp lines 188-194):
`stream << operand1 << Comparison() << operand2` on a local stream,
then the finished string is inserted into `os`. -/
def BinaryExpression.printTo {L R : Type} (printL : L → String) (printR : R → String)
    (e : BinaryExpression L R) (os : Ostream) : Ostream :=
  os.insertStr
    ((((Ostream.empty.insertStr (printL e.operand1)).insertStr e.cmp.glyph).insertStr
      (printR e.operand2)).content)

/-- The string a `BinaryExpression` renders as. -/
def BinaryExpression.printString {L R : Type} (printL : L → String) (printR : R → String)
    (e : BinaryExpression L R) : String :=
  (e.printTo printL printR Ostream.empty).content

/-- The string a `UnaryExpression` renders as. -/
def UnaryExpression.printString {T : Type} (printT : T → String)
    (e : UnaryExpression T) : String :=
  (e.printTo printT Ostream.empty).content

/-- `Decomposition<Expression>` (verify.hpp lines 103-124): source text
`code`, the expression node, and the boolean `value`, all `const`. -/
structure Decomposition (Expression : Type) where
  code : String
  expression : Expression
  value : Bool

/-- `NegatedDecomposition<Expression>` (verify.hpp lines 132-154): same
three fields (it derives from `Decomposition` and adds none). -/
structure NegatedDecomposition (Expression : Type) where
  code : String
  expression : Expression
  value : Bool

/-- `Decomposition::operator!` (verify.hpp line 121): a new
`NegatedDecomposition` built from the same `code`, `expression`,
`value`. -/
def Decomposition.lnot {E : Type} (d : Decomposition E) : NegatedDecomposition E :=
  ⟨d.code, d.expression, d.value⟩

/-- `Decomposition::operator bool` (verify.hpp line 123): the stored
value. -/
def Decomposition.toBool {E : Type} (d : Decomposition E) : Bool := d.value

/-- `NegatedDecomposition::operator!` (verify.hpp line 151): a plain
`Decomposition` rebuilt from the same `code`, `expression`, `value`. -/
def NegatedDecomposition.lnot {E : Type} (d : NegatedDecomposition E) : Decomposition E :=
  ⟨d.code, d.expression, d.value⟩

/-- `NegatedDecomposition::operator bool` (verify.hpp line 153): the
complement of the stored value. -/
def NegatedDecomposition.toBool {E : Type} (d : NegatedDecomposition E) : Bool := !d.value

/-- `operator<<(os, Decomposition)` (verify.hpp lines 113-119): builds
`"verify(" << code << ") => verify(" << expression << ") => " << value`
in a local `boolalpha` stream and inserts the finished string into `os`;
`printE` stands for `stream << expression`. -/
def Decomposition.printTo {E : Type} (printE : E → String)
    (d : Decomposition E) (os : Ostream) : Ostream :=
  let stream := Ostream.empty.setBoolalpha
  let stream := stream.insertStr "verify("
  let stream := stream.insertStr d.code
  let stream := stream.insertStr ") => verify("
  let stream := stream.insertStr (printE d.expression)
  let stream := stream.insertStr ") => "
  let stream := stream.insertBool d.value
  os.insertStr stream.content

/-- `operator<<(os, NegatedDecomposition)` (verify.hpp lines 142-149):
same as the plain form but with `!verify(` twice and the complemented
value `!this_.value`. -/
def NegatedDecomposition.printTo {E : Type} (printE : E → String)
    (d : NegatedDecomposition E) (os : Ostream) : Ostream :=
  let value := !d.value
  let stream := Ostream.empty.setBoolalpha
  let stream := stream.insertStr "!verify("
  let stream := stream.insertStr d.code
  let stream := stream.insertStr ") => !verify("
  let stream := stream.insertStr (printE d.expression)
  let stream := stream.insertStr ") => "
  let stream := stream.insertBool value
  os.insertStr stream.content

/-- The string a `Decomposition` renders as. -/
def Decomposition.printString {E : Type} (printE : E → String)
    (d : Decomposition E) : String :=
  (d.printTo printE Ostream.empty).content

/-- The string a `NegatedDecomposition` renders as. -/
def NegatedDecomposition.printString {E : Type} (printE : E → String)
    (d : NegatedDecomposition E) : String :=
  (d.printTo printE Ostream.empty).content

/-- `make_decomposition(code, x)` (verify.hpp lines 126-129): stores the
expression and the result of the single call `x.evaluate()`; `evaluate`
stands for the expression type's `evaluate` member. -/
def make_decomposition {E : Type} (code : String) (x : E) (evaluate : E → Bool) :
    Decomposition E :=
  Decomposition.mk code x (evaluate x)

/-- `decompose` (verify.hpp lines 198-242): stage-zero capture object
holding only the stringified source text `#x`. -/
structure decompose where
  code : String

/-- `decompose::FirstOperand<T1>` (verify.hpp lines 206-239): the
stage-one capture object holding `sourceText` and the first operand. -/
structure FirstOperand (T1 : Type) where
  code : String
  operand1 : T1

/-- `decompose::FirstOperand::SecondOperand<C, T2>` (verify.hpp lines
218-231): the stage-two capture object holding `sourceText`, both
operands and the comparator tag `C` the overload fixed. -/
structure SecondOperand (T1 T2 : Type) where
  code : String
  cmp : Comparator
  operand1 : T1
  operand2 : T2

/-- `decompose::operator<<` (verify.hpp line 241): binds the first
operand, producing the stage-one capture object. -/
def decompose.shl {T1 : Type} (d : decompose) (op1 : T1) : FirstOperand T1 :=
  ⟨d.code, op1⟩

/-- `FirstOperand::operator==` (verify.hpp line 233): fixes tag `EQ` and
binds the second operand. -/
def FirstOperand.cmpEQ {T1 T2 : Type} (f : FirstOperand T1) (op2 : T2) : SecondOperand T1 T2 :=
  ⟨f.code, .EQ, f.operand1, op2⟩

/-- `FirstOperand::operator!=` (verify.hpp line 234): fixes tag `NE`. -/
def FirstOperand.cmpNE {T1 T2 : Type} (f : FirstOperand T1) (op2 : T2) : SecondOperand T1 T2 :=
  ⟨f.code, .NE, f.operand1, op2⟩

/-- `FirstOperand::operator<=` (verify.hpp line 235): fixes tag `LE`. -/
def FirstOperand.cmpLE {T1 T2 : Type} (f : FirstOperand T1) (op2 : T2) : SecondOperand T1 T2 :=
  ⟨f.code, .LE, f.operand1, op2⟩

/-- `FirstOperand::operator>=` (verify.hpp line 236): fixes tag `GE`. -/
def FirstOperand.cmpGE {T1 T2 : Type} (f : FirstOperand T1) (op2 : T2) : SecondOperand T1 T2 :=
  ⟨f.code, .GE, f.operand1, op2⟩

/-- `FirstOperand::operator<` (verify.hpp line 237): fixes tag `LT`. -/
def FirstOperand.cmpLT {T1 T2 : Type} (f : FirstOperand T1) (op2 : T2) : SecondOperand T1 T2 :=
  ⟨f.code, .LT, f.operand1, op2⟩

/-- `FirstOperand::operator>` (verify.hpp line 238): fixes tag `GT`. -/
def FirstOperand.cmpGT {T1 T2 : Type} (f : FirstOperand T1) (op2 : T2) : SecondOperand T1 T2 :=
  ⟨f.code, .GT, f.operand1, op2⟩

/-- Dispatch of a comparator tag to the corresponding `FirstOperand`
overload: `applyCmp c` is `operator==` for `c = EQ`, ... , `operator>`
for `c = GT` (verify.hpp lines 233-238). -/
def FirstOperand.applyCmp {T1 T2 : Type} (f : FirstOperand T1) (c : Comparator)
    (op2 : T2) : SecondOperand T1 T2 :=
  match c with
  | .EQ => f.cmpEQ op2
  | .NE => f.cmpNE op2
  | .LE => f.cmpLE op2
  | .GE => f.cmpGE op2
  | .LT => f.cmpLT op2
  | .GT => f.cmpGT op2

/-- `FirstOperand::finish` (verify.hpp line 215): wraps the operand in a
`UnaryExpression` and hands it to `make_decomposition`; `toBool` stands
for the operand type's conversion to `bool`. -/
def FirstOperand.finish {T1 : Type} (toBool : T1 → Bool)
    (f : FirstOperand T1) : Decomposition (UnaryExpression T1) :=
  make_decomposition f.code (UnaryExpression.mk f.operand1)
    (UnaryExpression.evaluate toBool)

/-- `SecondOperand::finish` (verify.hpp line 230): wraps both operands
and the tag in a `BinaryExpression` and hands it to
`make_decomposition`; `native` carries the operands' comparison
operators. -/
def SecondOperand.finish {T1 T2 : Type} (native : NativeOps T1 T2)
    (s : SecondOperand T1 T2) : Decomposition (BinaryExpression T1 T2) :=
  make_decomposition s.code (BinaryExpression.mk s.cmp s.operand1 s.operand2)
    (BinaryExpression.evaluate native)

/-- The full `verify(x)` pipeline for a binary comparison `x1 <c> x2`
(verify.hpp line 71 together with the capture objects): the C++ parse
`((decompose(#x) << x1) <c> x2).finish()`. -/
def verifyBinary {T1 T2 : Type} (native : NativeOps T1 T2) (code : String)
    (op1 : T1) (c : Comparator) (op2 : T2) : Decomposition (BinaryExpression T1 T2) :=
  (((decompose.mk code).shl op1).applyCmp c op2).finish native

/-- The full `verify(x)` pipeline for a unary expression `x`
(verify.hpp line 71): the C++ parse `((decompose(#x) << x)).finish()`. -/
def verifyUnary {T1 : Type} (toBool : T1 → Bool) (code : String)
    (op1 : T1) : Decomposition (UnaryExpression T1) :=
  ((decompose.mk code).shl op1).finish toBool

/-- An effectful `evaluate` call: the pure rule `eval` instrumented with
an invocation counter, modelling an operand expression with an
observable side effect per call. -/
def countingEval {E : Type} (eval : E → Bool) : E → Nat → Bool × Nat :=
  fun e n => (eval e, n + 1)

/-- `make_decomposition` with the single `x.evaluate()` call made
explicit as an effectful step (verify.hpp line 128): runs `evaluateM x`
once on the incoming counter state and stores the returned boolean. -/
def make_decompositionM {E : Type} (code : String) (x : E)
    (evaluateM : E → Nat → Bool × Nat) (n : Nat) : Decomposition E × Nat :=
  let r := evaluateM x n
  (Decomposition.mk code x r.1, r.2)

/-- The operators C++ could try to apply to a `FirstOperand` capture
object at the decomposition boundary: the six relational operators plus
the four the spec singles out as rejected (shift left/right, logical
AND, logical OR). -/
inductive BoundaryOp : Type where
  | opEQ : BoundaryOp
  | opNE : BoundaryOp
  | opLE : BoundaryOp
  | opGE : BoundaryOp
  | opLT : BoundaryOp
  | opGT : BoundaryOp
  | opShl : BoundaryOp
  | opShr : BoundaryOp
  | opLAnd : BoundaryOp
  | opLOr : BoundaryOp
deriving DecidableEq, Repr

/-- C++ overload resolution of `firstOperand <op> op2` at the capture
boundary: `FirstOperand` declares exactly the six relational operators
(verify.hpp lines 233-238) and no shift, logical or boolean-conversion
member, so the six succeed with their tag and everything else has no
viable overload — a compile-time rejection, modelled as `none`
(verify.xfail.cpp exercises the four rejected cases). -/
def FirstOperand.resolveOp {T1 T2 : Type} (f : FirstOperand T1) (op : BoundaryOp)
    (op2 : T2) : Option (SecondOperand T1 T2) :=
  match op with
  | .opEQ => some (f.cmpEQ op2)
  | .opNE => some (f.cmpNE op2)
  | .opLE => some (f.cmpLE op2)
  | .opGE => some (f.cmpGE op2)
  | .opLT => some (f.cmpLT op2)
  | .opGT => some (f.cmpGT op2)
  | .opShl => none
  | .opShr => none
  | .opLAnd => none
  | .opLOr => none

/-- The `NativeOps` record of two `int` operands, as resolved for the
tests' `int a = 23; int b = 42;`: Lean `Int` with its decidable
comparisons. -/
def intOps : NativeOps Int Int :=
  ⟨fun a b => a = b, fun a b => a ≠ b, fun a b => a ≤ b,
   fun a b => b ≤ a, fun a b => a < b, fun a b => b < a⟩

/-- Everything of a rendered `Decomposition` before the boolean word. -/
def Decomposition.printBody {E : Type} (printE : E → String) (d : Decomposition E) : String :=
  "verify(" ++ d.code ++ ") => verify(" ++ printE d.expression ++ ") => "

/-- Everything of a rendered `NegatedDecomposition` before the boolean
word. -/
def NegatedDecomposition.printBody {E : Type} (printE : E → String)
    (d : NegatedDecomposition E) : String :=
  "!verify(" ++ d.code ++ ") => !verify(" ++ printE d.expression ++ ") => "

/-- C1: For every pair of operands of mutually comparable types and each
of the six comparator tags, the boolean stored in the `Decomposition`
produced by the full capture pipeline — which is also what its boolean
conversion returns — equals the result of the operands' native
comparison operator for that tag. -/
theorem decomposed_boolean_matches_native_comparison
    {T1 T2 : Type} (native : NativeOps T1 T2) (s : String) (x : T1) (y : T2) :
    (verifyBinary native s x .EQ y).toBool = native.eq x y
    ∧ (verifyBinary native s x .NE y).toBool = native.ne x y
    ∧ (verifyBinary native s x .LE y).toBool = native.le x y
    ∧ (verifyBinary native s x .GE y).toBool = native.ge x y
    ∧ (verifyBinary native s x .LT y).toBool = native.lt x y
    ∧ (verifyBinary native s x .GT y).toBool = native.gt x y
    ∧ ∀ c : Comparator, (verifyBinary native s x c y).toBool = (verifyBinary native s x c y).value :=
  ⟨rfl, rfl, rfl, rfl, rfl, rfl, fun _ => rfl⟩

/-- C2: Double negation is the identity: `!!` of a decomposition result
is the result itself — same stored value, same observed boolean, same
printed string — and each `!` only rebuilds from the stored fields,
leaving `code`, `expression` and `value` untouched; the same holds
starting from a negated result. -/
theorem double_negation_is_identity
    {E : Type} (printE : E → String) (d : Decomposition E) (f : NegatedDecomposition E) :
    d.lnot.lnot = d
    ∧ (d.lnot.lnot).printString printE = d.printString printE
    ∧ (d.lnot.lnot).toBool = d.toBool
    ∧ d.lnot.code = d.code ∧ d.lnot.expression = d.expression ∧ d.lnot.value = d.value
    ∧ f.lnot.lnot = f
    ∧ (f.lnot.lnot).printString printE = f.printString printE
    ∧ (f.lnot.lnot).toBool = f.toBool
    ∧ f.lnot.code = f.code ∧ f.lnot.expression = f.expression ∧ f.lnot.value = f.value :=
  ⟨rfl, rfl, rfl, rfl, rfl, rfl, rfl, rfl, rfl, rfl, rfl, rfl⟩

/-- C3: `evaluate` is invoked exactly once, at construction inside
`make_decomposition`: the instrumented pipeline bumps the invocation
counter by exactly one and produces the same result as the pure one;
the stored `value` is the result of that single call, and negation
(applied once or twice) rebuilds from the stored `code`, `expression`,
`value` without another `evaluate` call or any field change. -/
theorem evaluate_called_exactly_once_at_construction
    {E : Type} (code : String) (x : E) (eval : E → Bool) (n : Nat) :
    make_decompositionM code x (countingEval eval) n = (make_decomposition code x eval, n + 1)
    ∧ (make_decomposition code x eval).value = eval x
    ∧ (make_decomposition code x eval).code = code
    ∧ (make_decomposition code x eval).expression = x
    ∧ (make_decomposition code x eval).lnot
        = NegatedDecomposition.mk code x (eval x)
    ∧ (make_decomposition code x eval).lnot.lnot = make_decomposition code x eval :=
  ⟨rfl, rfl, rfl, rfl, rfl, rfl⟩

/-- C5: `!` on a plain result yields a negated result built from the
same `code`, `expression` and `value` (no re-evaluation, original
unchanged), whose boolean conversion is the complement of the original
stored value and whose printed boolean word is likewise the
complement. -/
theorem negation_complements_boolean
    {E : Type} (printE : E → String) (d : Decomposition E) :
    (d.lnot).toBool = !d.toBool
    ∧ (d.lnot).code = d.code
    ∧ (d.lnot).expression = d.expression
    ∧ (d.lnot).value = d.value
    ∧ (d.lnot).printString printE
        = "!verify(" ++ d.code ++ ") => !verify(" ++ printE d.expression ++ ") => "
          ++ boolText (!d.value) :=
  ⟨rfl, rfl, rfl, rfl, rfl⟩

/-- C6: The two-stage capture protocol: stage one binds the source text
and first operand into a `FirstOperand`; a trailing comparison applied
to that capture object yields a `SecondOperand` carrying source text,
both operands and the comparator tag; `finish` builds a
`UnaryExpression` node from a `FirstOperand` and a `BinaryExpression`
node from a `SecondOperand`, hands it to `make_decomposition`, which
calls `evaluate` exactly once (counter +1 in the instrumented run) and
stores its result in the final `Decomposition`. -/
theorem two_stage_capture_protocol
    {T1 T2 : Type} (s : String) (x : T1) (y : T2) (c : Comparator)
    (toB : T1 → Bool) (native : NativeOps T1 T2) (n : Nat) :
    (decompose.mk s).shl x = FirstOperand.mk s x
    ∧ (FirstOperand.mk s x).applyCmp c y = SecondOperand.mk s c x y
    ∧ (FirstOperand.mk s x).finish toB
        = make_decomposition s (UnaryExpression.mk x) (UnaryExpression.evaluate toB)
    ∧ (SecondOperand.mk s c x y).finish native
        = make_decomposition s (BinaryExpression.mk c x y) (BinaryExpression.evaluate native)
    ∧ ((FirstOperand.mk s x).finish toB).value = UnaryExpression.evaluate toB (UnaryExpression.mk x)
    ∧ ((SecondOperand.mk s c x y).finish native).value
        = BinaryExpression.evaluate native (BinaryExpression.mk c x y)
    ∧ make_decompositionM s (BinaryExpression.mk c x y)
        (countingEval (BinaryExpression.evaluate native)) n
        = ((SecondOperand.mk s c x y).finish native, n + 1) :=
  ⟨rfl, by cases c <;> rfl, rfl, rfl, rfl, rfl, rfl⟩

/-- C7: Decomposing a bare (unary) operand yields a result whose boolean
equals the operand's truthiness and whose negation's boolean is the
complement; in particular, for boolean literals with the identity
truthiness, the decomposed boolean is the literal itself. -/
theorem unary_decomposition_matches_truthiness
    {T1 : Type} (toB : T1 → Bool) (s : String) (x : T1) :
    (verifyUnary toB s x).toBool = toB x
    ∧ ((verifyUnary toB s x).lnot).toBool = !(toB x)
    ∧ ∀ v : Bool, (verifyUnary (fun b => b) s v).toBool = v
      ∧ ((verifyUnary (fun b => b) s v).lnot).toBool = !v :=
  ⟨rfl, rfl, fun _ => ⟨rfl, rfl⟩⟩

/-- C8: Overload resolution at the decomposition boundary: the
`FirstOperand` capture object accepts exactly the six relational
operators — each yielding the `SecondOperand` with the matching tag —
while shift, logical AND and logical OR have no viable overload and are
rejected (`none`) before any expression node exists to evaluate. -/
theorem boundary_rejects_shift_and_logical_ops
    {T1 T2 : Type} (f : FirstOperand T1) (op2 : T2) :
    f.resolveOp .opShl op2 = none
    ∧ f.resolveOp .opShr op2 = none
    ∧ f.resolveOp .opLAnd op2 = none
    ∧ f.resolveOp .opLOr op2 = none
    ∧ f.resolveOp .opEQ op2 = some (f.cmpEQ op2)
    ∧ f.resolveOp .opNE op2 = some (f.cmpNE op2)
    ∧ f.resolveOp .opLE op2 = some (f.cmpLE op2)
    ∧ f.resolveOp .opGE op2 = some (f.cmpGE op2)
    ∧ f.resolveOp .opLT op2 = some (f.cmpLT op2)
    ∧ f.resolveOp .opGT op2 = some (f.cmpGT op2)
    ∧ ∀ op : BoundaryOp, (f.resolveOp op op2).isSome
        ↔ (op = .opEQ ∨ op = .opNE ∨ op = .opLE ∨ op = .opGE ∨ op = .opLT ∨ op = .opGT) := by
  refine ⟨rfl, rfl, rfl, rfl, rfl, rfl, rfl, rfl, rfl, rfl, ?_⟩
  intro op
  cases op <;> simp [FirstOperand.resolveOp]

/-- Rendering of an `int` operand, `stream << someInt`. -/
def printInt (i : Int) : String := toString i

/-- C4: Exact print format: a plain result renders as
`"verify(" ++ sourceText ++ ") => verify(" ++ expressionText ++ ") => " ++ booleanWord`
and a negated one with `!verify(` twice and the complemented boolean
word; concretely, decomposing `"a < b"` with operands 23 and 42 prints
`"verify(a < b) => verify(23 < 42) => true"` and its negation prints
`"!verify(a < b) => !verify(23 < 42) => false"`. -/
theorem print_format_is_exact
    {E : Type} (printE : E → String) (d : Decomposition E) (f : NegatedDecomposition E) :
    d.printString printE
      = "verify(" ++ d.code ++ ") => verify(" ++ printE d.expression ++ ") => "
        ++ boolText d.value
    ∧ f.printString printE
      = "!verify(" ++ f.code ++ ") => !verify(" ++ printE f.expression ++ ") => "
        ++ boolText (!f.value)
    ∧ (verifyBinary intOps "a < b" 23 .LT 42).printString
        (BinaryExpression.printString printInt printInt)
      = "verify(a < b) => verify(23 < 42) => true"
    ∧ ((verifyBinary intOps "a < b" 23 .LT 42).lnot).printString
        (BinaryExpression.printString printInt printInt)
      = "!verify(a < b) => !verify(23 < 42) => false" :=
  ⟨rfl, rfl, by decide, by decide⟩

/-- C9: The boolean word of the rendered text always agrees with the
boolean conversion, for both variants: each prints its body followed by
`boolText` of its own observed boolean, and `boolText` yields "true"
exactly for `true` and "false" exactly for `false`. -/
theorem printed_boolean_agrees_with_conversion
    {E : Type} (printE : E → String) (d : Decomposition E) (f : NegatedDecomposition E) :
    d.printString printE = d.printBody printE ++ boolText d.toBool
    ∧ f.printString printE = f.printBody printE ++ boolText f.toBool
    ∧ ∀ b : Bool, (boolText b = "true" ↔ b = true) ∧ (boolText b = "false" ↔ b = false) := by
  refine ⟨rfl, rfl, ?_⟩
  intro b
  cases b <;> simp [boolText]

/-- C10: Printing never touches the destination stream's formatting
state and only appends a fully composed string: for each of the four
`operator<<` overloads the destination's `boolalpha` flag is unchanged
and its content grows by exactly the result's render string, so repeated
prints append identical text. -/
theorem printing_preserves_stream_state
    {E T L R : Type} (printE : E → String) (printT : T → String)
    (printL : L → String) (printR : R → String)
    (d : Decomposition E) (f : NegatedDecomposition E)
    (u : UnaryExpression T) (e : BinaryExpression L R) (os : Ostream) :
    (d.printTo printE os).boolalpha = os.boolalpha
    ∧ (d.printTo printE os).content = os.content ++ d.printString printE
    ∧ (f.printTo printE os).boolalpha = os.boolalpha
    ∧ (f.printTo printE os).content = os.content ++ f.printString printE
    ∧ (u.printTo printT os).boolalpha = os.boolalpha
    ∧ (u.printTo printT os).content = os.content ++ u.printString printT
    ∧ (e.printTo printL printR os).boolalpha = os.boolalpha
    ∧ (e.printTo printL printR os).content = os.content ++ e.printString printL printR
    ∧ (d.printTo printE (d.printTo printE os)).content
        = (d.printTo printE os).content ++ d.printString printE
    ∧ (d.printTo printE (d.printTo printE os)).boolalpha = os.boolalpha :=
  ⟨rfl, rfl, rfl, rfl, rfl, rfl, rfl, rfl, rfl, rfl⟩

end CppVerify
